import Mathlib

/-!
Verification development for `scripts/seed-firestore.ts`, the single source
file of this repository: a one-shot Firestore seeding script for a
classroom-attendance demo.  The script is shallowly embedded below:

* JavaScript's `Number(string)` coercion is modelled by `jsToNumber`,
  returning `JsNum` (NaN / ±Infinity / finite rational).  Finite values are
  kept at exact rational precision rather than IEEE-754 doubles; no claim
  in scope depends on double rounding, only on NaN-ness and on equality
  between a stored value and the parse that produced it.
* `String.split(',')` is modelled by `jsSplitComma`.
* `Date` values are epoch milliseconds (`Nat`); `toISOString()` output is
  represented symbolically by the `Value.isoTime` constructor (ISO
  formatting is injective on milliseconds, so nothing is lost).
* `JSON.stringify(o)` output is represented symbolically by `Value.json`
  (stringification is injective on the object shapes produced here).
* The Firestore client is replaced by an explicit trace of write events;
  remote failures are not modelled (no claim concerns them).
-/

namespace SeedFs

/-- JavaScript number resulting from `Number(string)`: NaN, a signed
infinity, or a finite value (kept as an exact rational). -/
inductive JsNum where
  | nan
  | inf (negative : Bool)
  | finite (val : ℚ)
deriving DecidableEq

/-- Code points JavaScript treats as whitespace for string trimming in
`Number(string)` (WhiteSpace and LineTerminator code points). -/
def jsWhitespaceCodes : List Nat :=
  [9, 10, 11, 12, 13, 32, 160, 0x1680, 0x2000, 0x2001, 0x2002, 0x2003,
   0x2004, 0x2005, 0x2006, 0x2007, 0x2008, 0x2009, 0x200A, 0x2028, 0x2029,
   0x202F, 0x205F, 0x3000, 0xFEFF]

def isJsWhitespace (c : Char) : Bool := jsWhitespaceCodes.contains c.toNat

def digitVal (c : Char) : Nat := c.toNat - '0'.toNat

def isHexDigitCl (c : Char) : Bool :=
  c.isDigit || ('a' ≤ c && c ≤ 'f') || ('A' ≤ c && c ≤ 'F')

def hexVal (c : Char) : Nat :=
  if c.isDigit then digitVal c
  else if 'a' ≤ c && c ≤ 'f' then c.toNat - 'a'.toNat + 10
  else c.toNat - 'A'.toNat + 10

/-- Digit admissibility for the non-decimal (`0x` / `0o` / `0b`) integer
literal forms accepted by `Number(string)`. -/
def radixDigitOk (r : Nat) (c : Char) : Bool :=
  if r = 16 then isHexDigitCl c
  else if r = 8 then '0' ≤ c && c ≤ '7'
  else c = '0' || c = '1'

def radixVal (r : Nat) (l : List Char) : Nat :=
  l.foldl (fun acc c => acc * r + hexVal c) 0

def parseRadix (r : Nat) (l : List Char) : JsNum :=
  if !l.isEmpty && l.all (radixDigitOk r) then .finite (radixVal r l) else .nan

def decVal (l : List Char) : Nat :=
  l.foldl (fun a c => a * 10 + digitVal c) 0

/-- Exponent part of a decimal literal, after the `e`/`E` marker. -/
def parseExpPart : List Char → Option ℤ
  | [] => none
  | '+' :: ds => if !ds.isEmpty && ds.all Char.isDigit then some (decVal ds) else none
  | '-' :: ds => if !ds.isEmpty && ds.all Char.isDigit then some (-(decVal ds : ℤ)) else none
  | ds => if !ds.isEmpty && ds.all Char.isDigit then some (decVal ds) else none

/-- Unsigned decimal literal (`digits [. digits] [exp]` or `. digits [exp]`),
required to consume the entire input; `none` means NaN. -/
def parseDecBody (l : List Char) : Option ℚ :=
  let ip := l.takeWhile Char.isDigit
  let r1 := l.dropWhile Char.isDigit
  match r1 with
  | '.' :: r2 =>
    let fp := r2.takeWhile Char.isDigit
    let r3 := r2.dropWhile Char.isDigit
    if ip.isEmpty && fp.isEmpty then none
    else
      let base : ℚ := (decVal ip : ℚ) + (decVal fp : ℚ) / (10 : ℚ) ^ fp.length
      match r3 with
      | [] => some base
      | 'e' :: r4 => (parseExpPart r4).map fun e => base * (10 : ℚ) ^ e
      | 'E' :: r4 => (parseExpPart r4).map fun e => base * (10 : ℚ) ^ e
      | _ => none
  | [] => if ip.isEmpty then none else some (decVal ip : ℚ)
  | 'e' :: r4 =>
    if ip.isEmpty then none
    else (parseExpPart r4).map fun e => (decVal ip : ℚ) * (10 : ℚ) ^ e
  | 'E' :: r4 =>
    if ip.isEmpty then none
    else (parseExpPart r4).map fun e => (decVal ip : ℚ) * (10 : ℚ) ^ e
  | _ => none

/-- Optionally signed decimal literal or `Infinity`. -/
def parseSignedDec (l : List Char) : JsNum :=
  let sr : Bool × List Char :=
    match l with
    | '+' :: r => (false, r)
    | '-' :: r => (true, r)
    | r => (false, r)
  let neg := sr.1
  let rest := sr.2
  if rest = "Infinity".data then .inf neg
  else
    match parseDecBody rest with
    | some q => .finite (if neg then -q else q)
    | none => .nan

/-- JavaScript `Number(string)` (ECMAScript StringToNumber): trim
whitespace, empty means `0`, then a signed decimal literal, `Infinity`, or
an unsigned `0x`/`0o`/`0b` integer literal; anything else is NaN. -/
def jsToNumber (s : String) : JsNum :=
  let t := ((s.data.dropWhile isJsWhitespace).reverse.dropWhile isJsWhitespace).reverse
  match t with
  | [] => .finite 0
  | '0' :: x :: rest =>
    if x = 'x' ∨ x = 'X' then parseRadix 16 rest
    else if x = 'o' ∨ x = 'O' then parseRadix 8 rest
    else if x = 'b' ∨ x = 'B' then parseRadix 2 rest
    else parseSignedDec ('0' :: x :: rest)
  | _ => parseSignedDec t

/-- `String.prototype.split(',')`: cut the character list at every comma. -/
def splitCommaAux : List Char → List Char → List (List Char)
  | [], acc => [acc.reverse]
  | c :: rest, acc =>
    if c = ',' then acc.reverse :: splitCommaAux rest []
    else splitCommaAux rest (c :: acc)

def jsSplitComma (s : String) : List String :=
  (splitCommaAux s.data []).map String.mk

/-- `String.prototype.replace` with a global hyphen pattern: remove every
hyphen. -/
def stripHyphens (s : String) : String :=
  String.mk (s.data.filter fun c => c != '-')

/-- Prefix test on character lists (kernel-reducible replacement for the
iterator-based `String.startsWith`). -/
def startsSeg : List Char → List Char → Bool
  | [], _ => true
  | _ :: _, [] => false
  | a :: as, b :: bs => a == b && startsSeg as bs

/-- Substring containment on character lists (`String.includes`). -/
def hasSubstring : List Char → List Char → Bool
  | needle, [] => startsSeg needle []
  | needle, c :: rest => startsSeg needle (c :: rest) || hasSubstring needle rest

/-- Suffix test on character lists (`String.endsWith`). -/
def endsSeg (suffix s : List Char) : Bool :=
  startsSeg suffix.reverse s.reverse

/-- Lowercase hexadecimal digit (the alphabet of `crypto.randomUUID()`
output apart from its hyphens). -/
def isLowerHex (c : Char) : Bool := c.isDigit || ('a' ≤ c && c ≤ 'f')

/-- A 32-character lowercase-hex string: the shape of a hyphen-stripped
`randomUUID()` value. -/
def Hex32 (s : String) : Prop :=
  s.length = 32 ∧ ∀ c ∈ s.data, isLowerHex c = true

instance (s : String) : Decidable (Hex32 s) := by
  unfold Hex32; infer_instance

/-- Shape of a `crypto.randomUUID()` result: five lowercase-hex groups of
lengths 8, 4, 4, 4 and 12 joined by hyphens.  `generateSecureId` (source
lines 38–45) returns such a string when `randomUUID` is available. -/
def IsUUIDForm (s : String) : Prop :=
  ∃ a b c d e : List Char,
    s.data = a ++ ['-'] ++ b ++ ['-'] ++ c ++ ['-'] ++ d ++ ['-'] ++ e ∧
    a.length = 8 ∧ b.length = 4 ∧ c.length = 4 ∧ d.length = 4 ∧
    e.length = 12 ∧ ∀ ch ∈ a ++ b ++ c ++ d ++ e, isLowerHex ch = true

/-- Runtime JSON-ish field values occurring in the documents the script
builds.  `isoTime ms` stands for `new Date(ms).toISOString()`; `locStr`
stands for the `toFixed(5)`-formatted "lat, lng" display string; `json`
stands for the `JSON.stringify` of an object with the given fields;
`serverTimestamp` is the Firestore `FieldValue.serverTimestamp()` sentinel;
`undefinedVal` is JavaScript `undefined` (reachable because a value flag given
last on the command line stores an `undefined` option). -/
inductive Value where
  | str (s : String)
  | num (n : JsNum)
  | null
  | undefinedVal
  | arr (elems : List Value)
  | obj (fields : List (String × Value))
  | json (fields : List (String × Value))
  | isoTime (ms : Nat)
  | locStr (lat lng : JsNum)
  | serverTimestamp

/-- A possibly-`undefined` string option rendered as a field value. -/
def optStrV : Option String → Value
  | some s => .str s
  | none => .undefinedVal

/-- The `SeedOptions` record after `coerceOptions` merging.  String fields
other than `teacherId` are `Option String` because the argument parser can
store an `undefined` value for them (a `--flag` with no following token),
which survives the object spread over `DEFAULTS`. -/
structure SeedOptions where
  teacherId : String
  teacherName : Option String
  className : Option String
  subject : Option String
  skipSession : Bool
  sessionId : Option String
  location : Option String

def defaultTeacherName : String := "Demo Teacher"

def defaultClassName : String := "Grade 10 — Section A"

def defaultSubject : String := "Mathematics"

/-- The `DEFAULTS` constant (source lines 25–33). -/
def DEFAULTS : SeedOptions :=
  { teacherId := ""
    teacherName := some defaultTeacherName
    className := some defaultClassName
    subject := some defaultSubject
    skipSession := false
    sessionId := none
    location := some "0,0" }

/-- Template-literal rendering of a possibly-`undefined` string. -/
def showOptString : Option String → String
  | some s => s
  | none => "undefined"

/-- The error message thrown for a non-numeric location component
(source line 178). -/
def locationErrorMsg (options : SeedOptions) : String :=
  "Invalid --location value: " ++ showOptString options.location ++
    ". Expected format is \"lat,lng\""

/-- The location string actually split by `buildSessionDocuments`
(source line 173): `options.location ?? DEFAULTS.location ?? '0,0'`. -/
def effectiveLocation (options : SeedOptions) : String :=
  ((options.location.orElse fun _ => DEFAULTS.location).getD "0,0")

/-- `buildSessionDocuments` (source lines 172–238): parse the location,
fail on NaN, otherwise build the session document and the public-session
document as field lists.  `now` is `Date.now()` in epoch milliseconds. -/
def buildSessionDocuments (options : SeedOptions) (sessionId sessionToken : String)
    (now : Nat) : Except String (List (String × Value) × List (String × Value)) :=
  let parts := jsSplitComma (effectiveLocation options)
  let latitudeRaw := parts.getD 0 "0"
  let longitudeRaw := parts.getD 1 "0"
  let latitude := jsToNumber latitudeRaw
  let longitude := jsToNumber longitudeRaw
  if latitude = JsNum.nan ∨ longitude = JsNum.nan then
    .error (locationErrorMsg options)
  else
    let scheduledFor := now + 15 * 60 * 1000
    let locationCoordinates : Value :=
      .obj [("latitude", .num latitude), ("longitude", .num longitude),
            ("accuracy", .null), ("capturedAt", .isoTime now)]
    let qrData : Value :=
      .json [("sessionId", .str sessionId), ("sessionToken", .str sessionToken),
             ("className", optStrV options.className),
             ("subject", optStrV options.subject),
             ("scheduledFor", .isoTime scheduledFor),
             ("teacherId", .str options.teacherId),
             ("durationMinutes", .num (.finite 45)),
             ("locationCoordinates", locationCoordinates)]
    let sessionDoc : List (String × Value) :=
      [("sessionId", .str sessionId),
       ("className", optStrV options.className),
       ("subject", optStrV options.subject),
       ("scheduledFor", .isoTime scheduledFor),
       ("location", .locStr latitude longitude),
       ("locationCoordinates", locationCoordinates),
       ("durationMinutes", .num (.finite 45)),
       ("status", .str "scheduled"),
       ("expectedAttendance", .num (.finite 30)),
       ("attendees", .arr []),
       ("sessionToken", .str sessionToken),
       ("qrCodeData", qrData),
       ("createdAt", .serverTimestamp)]
    let publicDoc : List (String × Value) :=
      [("sessionId", .str sessionId),
       ("sessionToken", .str sessionToken),
       ("sessionPath", .str ("teachers/" ++ options.teacherId ++ "/sessions/" ++ sessionId)),
       ("teacherId", .str options.teacherId),
       ("className", optStrV options.className),
       ("subject", optStrV options.subject),
       ("scheduledFor", .isoTime scheduledFor),
       ("durationMinutes", .num (.finite 45)),
       ("expectedAttendance", .num (.finite 30)),
       ("status", .str "scheduled"),
       ("location", .locStr latitude longitude),
       ("locationCoordinates", locationCoordinates),
       ("createdAt", .serverTimestamp)]
    .ok (sessionDoc, publicDoc)

/-- One entry of the `classes` array in the analytics payload.
`updatedAt` is the ISO timestamp, kept as epoch milliseconds. -/
structure ClassStat where
  classId : String
  className : String
  subject : String
  averageAttendanceRate : Nat
  totalStudents : Nat
  dropoutRiskCount : Nat
  failingStudentsCount : Nat
  attendanceTrend : List Nat
  updatedAt : Nat
deriving DecidableEq

/-- One entry of the `dropoutRiskStudents` array. -/
structure RiskStudent where
  studentId : String
  name : String
  className : String
  attendanceRate : Nat
  absences : Nat
  riskLevel : String
  notes : String
deriving DecidableEq

/-- One entry of the `failingStudents` array. -/
structure FailStudent where
  studentId : String
  name : String
  className : String
  averageGrade : Nat
  missingAssignments : Nat
  status : String
deriving DecidableEq

/-- The analytics snapshot document.  The `updatedAt` field is the constant
`FieldValue.serverTimestamp()` sentinel and is omitted; `reportingPeriod`
is the ISO rendering of `now`, kept as epoch milliseconds. -/
structure AnalyticsPayload where
  teacherId : String
  averageAttendanceRate : ℤ
  dropoutRiskCount : Nat
  failingStudentsCount : Nat
  reportingPeriod : Nat
  classes : List ClassStat
  dropoutRiskStudents : List RiskStudent
  failingStudents : List FailStudent
deriving DecidableEq

/-- JavaScript `Math.round` on an exact rational: floor of `q + 1/2`. -/
def jsRound (q : ℚ) : ℤ := Rat.floor (q + 1 / 2)

/-- `buildAnalyticsPayload` (source lines 240–353): three synthetic
classes, three at-risk students, three failing students, and the rounded
mean of the three class attendance rates. -/
def buildAnalyticsPayload (options : SeedOptions) (now : Nat) : AnalyticsPayload :=
  let baseClassName := options.className.getD defaultClassName
  let classes : List ClassStat :=
    [{ classId := "class-1", className := baseClassName
       subject := options.subject.getD defaultSubject
       averageAttendanceRate := 84, totalStudents := 32
       dropoutRiskCount := 3, failingStudentsCount := 4
       attendanceTrend := [88, 86, 85, 82, 84, 81, 79], updatedAt := now },
     { classId := "class-2", className := "Grade 12 — Section B"
       subject := "Physics"
       averageAttendanceRate := 76, totalStudents := 28
       dropoutRiskCount := 2, failingStudentsCount := 3
       attendanceTrend := [82, 80, 78, 77, 76, 74, 73], updatedAt := now },
     { classId := "class-3", className := "Grade 11 — Section C"
       subject := "Computer Science"
       averageAttendanceRate := 91, totalStudents := 30
       dropoutRiskCount := 1, failingStudentsCount := 2
       attendanceTrend := [93, 92, 91, 90, 92, 91, 91], updatedAt := now }]
  let dropoutRiskStudents : List RiskStudent :=
    [{ studentId := "stu-1001", name := "Ananya Patel", className := baseClassName
       attendanceRate := 62, absences := 14, riskLevel := "high"
       notes := "Missed the last three consecutive sessions." },
     { studentId := "stu-1023", name := "Rahul Iyer", className := "Grade 12 — Section B"
       attendanceRate := 68, absences := 11, riskLevel := "medium"
       notes := "Frequently absent on laboratory days." },
     { studentId := "stu-1098", name := "Priya Sharma", className := "Grade 11 — Section C"
       attendanceRate := 71, absences := 9, riskLevel := "medium"
       notes := "Needs follow-up from homeroom teacher." }]
  let failingStudents : List FailStudent :=
    [{ studentId := "stu-1015", name := "Karan Desai", className := baseClassName
       averageGrade := 54, missingAssignments := 5, status := "critical" },
     { studentId := "stu-1067", name := "Meera Sood", className := "Grade 12 — Section B"
       averageGrade := 58, missingAssignments := 3, status := "warning" },
     { studentId := "stu-1102", name := "Arjun Malhotra", className := "Grade 11 — Section C"
       averageGrade := 59, missingAssignments := 4, status := "warning" }]
  let averageAttendanceRate : ℤ :=
    jsRound (((classes.foldl (fun s entry => s + entry.averageAttendanceRate) 0 : Nat) : ℚ) /
      (classes.length : ℚ))
  { teacherId := options.teacherId
    averageAttendanceRate := averageAttendanceRate
    dropoutRiskCount := dropoutRiskStudents.length
    failingStudentsCount := failingStudents.length
    reportingPeriod := now
    classes := classes
    dropoutRiskStudents := dropoutRiskStudents
    failingStudents := failingStudents }

/-- A Firestore upsert issued by `seed` (source lines 355–396), with its
target document identified by the arguments of each constructor.  The
teacher payload's two `serverTimestamp` fields are constants and omitted;
`displayName` is kept because it varies with options. -/
inductive Write where
  | teacherSet (teacherId : String) (displayName : Option String)
  | sessionSet (teacherId sessionId : String) (doc : List (String × Value))
  | publicSet (sessionToken : String) (doc : List (String × Value))
  | analyticsSet (teacherId : String) (payload : AnalyticsPayload)

def Write.isTeacherSet : Write → Bool
  | .teacherSet _ _ => true
  | _ => false

def Write.isSessionSet : Write → Bool
  | .sessionSet _ _ _ => true
  | _ => false

def Write.isPublicSet : Write → Bool
  | .publicSet _ _ => true
  | _ => false

def Write.isAnalyticsSet : Write → Bool
  | .analyticsSet _ _ => true
  | _ => false

/-- Observable actions of the process, in program order: console output,
the credential-file read, and the Firestore writes. -/
inductive Event where
  | usage
  | warn (flag : String)
  | log (line : String)
  | err (line : String)
  | credRead (path : String)
  | writeEv (w : Write)

def Event.isCredRead : Event → Bool
  | .credRead _ => true
  | _ => false

def Event.isWriteEv : Event → Bool
  | .writeEv _ => true
  | _ => false

/-- The writes contained in an event trace, in order. -/
def writesOf (evs : List Event) : List Write :=
  evs.filterMap fun e =>
    match e with
    | .writeEv w => some w
    | _ => none

/-- The document keys of the `publicSessions` writes in a trace. -/
def publicTokensOf (evs : List Event) : List String :=
  (writesOf evs).filterMap fun w =>
    match w with
    | .publicSet t _ => some t
    | _ => none

/-- The session-document ids of the session writes in a trace. -/
def sessionIdsOf (evs : List Event) : List String :=
  (writesOf evs).filterMap fun w =>
    match w with
    | .sessionSet _ sid _ => some sid
    | _ => none

/-- The write stage of `seed` (source lines 366–395), as an event trace
plus the error thrown partway, if any.  `autoId` is the id the Firestore
client would auto-generate for `sessions.doc()`; `uuid` is the value
returned by `generateSecureId()`.  Remote writes are assumed to succeed
(no claim concerns remote failures). -/
def seedEvents (options : SeedOptions) (autoId uuid : String) (now : Nat) :
    List Event × Option String :=
  let teacherEvs : List Event :=
    [.log ("\nCreating teacher document for " ++ options.teacherId ++ "..."),
     .writeEv (.teacherSet options.teacherId options.teacherName)]
  let analyticsEvs : List Event :=
    [.log ("Seeding analytics snapshot for teacher " ++ options.teacherId ++ "..."),
     .writeEv (.analyticsSet options.teacherId (buildAnalyticsPayload options now)),
     .log "\nFirestore seed completed successfully."]
  if options.skipSession then
    (teacherEvs ++ analyticsEvs, none)
  else
    let sessionId := options.sessionId.getD autoId
    let sessionToken := stripHyphens uuid
    match buildSessionDocuments options sessionId sessionToken now with
    | .error e => (teacherEvs, some e)
    | .ok docs =>
      (teacherEvs ++
        [.log ("Seeding session document at teachers/" ++ options.teacherId ++
           "/sessions/" ++ sessionId ++ "..."),
         .writeEv (.sessionSet options.teacherId sessionId docs.1),
         .log ("Publishing public session token at publicSessions/" ++ sessionToken ++ "..."),
         .writeEv (.publicSet sessionToken docs.2)] ++ analyticsEvs, none)

/-- The partial options record produced by `parseArgs`.  Each value flag
stores `some v`; the outer `Option` is "property present on the object",
the inner one is "value is not `undefined`" (a flag given as the last
token stores `undefined`). -/
structure ParsedArgs where
  teacherId : Option (Option String) := none
  teacherName : Option (Option String) := none
  className : Option (Option String) := none
  subject : Option (Option String) := none
  sessionId : Option (Option String) := none
  location : Option (Option String) := none
  serviceAccountPath : Option (Option String) := none
  skipSession : Option Bool := none
  help : Option Bool := none

/-- One `switch` dispatch of `parseArgs` (source lines 60–99): the updated
record, whether the following token is consumed, and the unknown-flag
warning if any. -/
def applyFlag (acc : ParsedArgs) (key : String) (next : Option String) :
    ParsedArgs × Bool × Option String :=
  if key = "teacher" then ({ acc with teacherId := some next }, true, none)
  else if key = "name" then ({ acc with teacherName := some next }, true, none)
  else if key = "class" then ({ acc with className := some next }, true, none)
  else if key = "subject" then ({ acc with subject := some next }, true, none)
  else if key = "session-id" then ({ acc with sessionId := some next }, true, none)
  else if key = "location" then ({ acc with location := some next }, true, none)
  else if key = "service-account" then
    ({ acc with serviceAccountPath := some next }, true, none)
  else if key = "skip-session" then ({ acc with skipSession := some true }, false, none)
  else if key = "help" then ({ acc with help := some true }, false, none)
  else if key = "h" then ({ acc with help := some true }, false, none)
  else (acc, false, some key)

/-- The scanning loop of `parseArgs` (source lines 50–100).  Tokens not
starting with `--` are skipped; a value flag consumes the next token. -/
def parseArgsAux : ParsedArgs → List String → List String → ParsedArgs × List String
  | acc, ws, [] => (acc, ws.reverse)
  | acc, ws, current :: rest =>
    if startsSeg "--".data current.data then
      let step := applyFlag acc (String.mk (current.data.drop 2)) rest.head?
      let ws2 := match step.2.2 with
        | some k => k :: ws
        | none => ws
      if step.2.1 then
        match rest with
        | [] => parseArgsAux step.1 ws2 []
        | _ :: rest2 => parseArgsAux step.1 ws2 rest2
      else
        parseArgsAux step.1 ws2 rest
    else
      parseArgsAux acc ws rest

/-- `parseArgs` (source lines 47–103): the parsed record together with the
keys of the unknown flags warned about, in order. -/
def parseArgs (argv : List String) : ParsedArgs × List String :=
  parseArgsAux {} [] argv

/-- JavaScript truthiness test for `parsed.teacherId`: falsy when the
property is absent, `undefined`, or the empty string. -/
def jsFalsyOS : Option (Option String) → Bool
  | some (some s) => s == ""
  | _ => true

/-- Spread-merge of one parsed field over its default, as in
`{ ...DEFAULTS, ...parsed }`: a property present on `parsed` overrides the
default even when its value is `undefined`. -/
def mergeOS : Option (Option String) → Option String → Option String
  | none, dflt => dflt
  | some v, _ => v

/-- Outcome of `coerceOptions` (source lines 124–142): print usage and
exit 0 on `--help`; print usage and throw on a falsy teacher id;
otherwise the merged options. -/
inductive CoerceOut where
  | helpExit
  | missingTeacher (msg : String)
  | ok (options : SeedOptions)

def missingTeacherMsg : String := "Missing required flag: --teacher <firebase-uid>"

def coerceOptions (parsed : ParsedArgs) : CoerceOut :=
  if parsed.help.getD false then .helpExit
  else if jsFalsyOS parsed.teacherId then .missingTeacher missingTeacherMsg
  else
    .ok { teacherId :=
            match parsed.teacherId with
            | some (some s) => s
            | _ => ""
          teacherName := mergeOS parsed.teacherName DEFAULTS.teacherName
          className := mergeOS parsed.className DEFAULTS.className
          subject := mergeOS parsed.subject DEFAULTS.subject
          skipSession := (parsed.skipSession).getD DEFAULTS.skipSession
          sessionId := mergeOS parsed.sessionId DEFAULTS.sessionId
          location := mergeOS parsed.location DEFAULTS.location }

/-- The filesystem and process environment `detectServiceAccount` reads:
`resolveCwd` is `resolve(process.cwd(), ·)`, `resolveRepo` is
`resolve(repoRoot, ·)`, `existsAt` is `existsSync`,
`envServiceAccountPath` is `process.env.FIREBASE_SERVICE_ACCOUNT_PATH`,
and `repoRootListing` is `readdirSync(repoRoot)`. -/
structure FsEnv where
  resolveCwd : String → String
  resolveRepo : String → String
  existsAt : String → Bool
  envServiceAccountPath : Option String
  repoRootListing : List String

/-- The scan filter of `detectServiceAccount` (source line 162): file name
contains `firebase-adminsdk` and ends in `.json`. -/
def scanFilter (file : String) : Bool :=
  hasSubstring "firebase-adminsdk".data file.data && endsSeg ".json".data file.data

def noCandidateMsg : String :=
  "No service account JSON found. Set FIREBASE_SERVICE_ACCOUNT_PATH or pass --service-account <path>."

/-- JavaScript truthiness of an optional string path: `some p` with
non-empty `p`, otherwise `none`. -/
def truthyOpt (x : Option String) : Option String :=
  x.filter fun s => !(s == "")

/-- `detectServiceAccount` (source lines 144–170).  A non-empty explicit
path wins; else a non-empty environment path; else the first repo-root
scan candidate.  Returns the chosen path plus the console log emitted in
the scan case; empty-string paths are falsy and fall through, as in the
source's truthiness tests. -/
def detectServiceAccount (explicitPath : Option String) (env : FsEnv) :
    Except String (String × List Event) :=
  match truthyOpt explicitPath with
  | some p =>
    let resolved := env.resolveCwd p
    if env.existsAt resolved then .ok (resolved, [])
    else .error ("Service account file not found at " ++ resolved)
  | none =>
    match truthyOpt env.envServiceAccountPath with
    | some p =>
      let resolved := env.resolveCwd p
      if env.existsAt resolved then .ok (resolved, [])
      else .error ("Service account file from FIREBASE_SERVICE_ACCOUNT_PATH not found at " ++ resolved)
    | none =>
      match env.repoRootListing.filter scanFilter with
      | [] => .error noCandidateMsg
      | c :: _ =>
        let chosen := env.resolveRepo c
        .ok (chosen, [.log ("Using service account file: " ++ chosen)])

/-- Whether the first credential source that applies (explicit flag, else
environment variable, else repo scan) yields no usable candidate. -/
def firstSourceFails (explicitPath : Option String) (env : FsEnv) : Prop :=
  match truthyOpt explicitPath with
  | some p => env.existsAt (env.resolveCwd p) = false
  | none =>
    match truthyOpt env.envServiceAccountPath with
    | some p => env.existsAt (env.resolveCwd p) = false
    | none => env.repoRootListing.filter scanFilter = []

/-- `main` (source lines 398–413) plus `seed`: the full observable trace
and the process exit code.  Every caught error prints the failure header
and the message and sets exit code 1. -/
def mainRun (argv : List String) (env : FsEnv) (autoId uuid : String) (now : Nat) :
    List Event × Nat :=
  let parsed := (parseArgs argv).1
  let warnEvs := (parseArgs argv).2.map Event.warn
  match coerceOptions parsed with
  | .helpExit => (warnEvs ++ [Event.usage], 0)
  | .missingTeacher msg =>
    (warnEvs ++ [Event.usage, Event.err "\nFailed to seed Firestore:", Event.err msg], 1)
  | .ok options =>
    match detectServiceAccount parsed.serviceAccountPath.join env with
    | .error e =>
      (warnEvs ++ [Event.err "\nFailed to seed Firestore:", Event.err e], 1)
    | .ok found =>
      let seeded := seedEvents options autoId uuid now
      match seeded.2 with
      | none => (warnEvs ++ found.2 ++ [Event.credRead found.1] ++ seeded.1, 0)
      | some e =>
        (warnEvs ++ found.2 ++ [Event.credRead found.1] ++ seeded.1 ++
          [Event.err "\nFailed to seed Firestore:", Event.err e], 1)

/-- Decoded QR payload lookup: the field `key` of the JSON object stored
in a document's `qrCodeData` field, when that field is a JSON string. -/
def qrFieldLookup (doc : List (String × Value)) (key : String) : Option Value :=
  match List.lookup "qrCodeData" doc with
  | some (.json fields) => List.lookup key fields
  | _ => none

/-- Sample options used to instantiate theorems at a concrete input:
teacher `t`, class `C`, subject `M`, location `1,2`, no explicit session
id, session not skipped. -/
def wOpts : SeedOptions :=
  { teacherId := "t", teacherName := some "Demo Teacher", className := some "C",
    subject := some "M", skipSession := false, sessionId := none, location := some "1,2" }

/-- The session document produced by `buildSessionDocuments` on `wOpts`. -/
def wSessionDoc : List (String × Value) :=
  match buildSessionDocuments wOpts "S" "T" 0 with
  | .ok p => p.1
  | .error _ => []

/-- The public-session document produced by `buildSessionDocuments` on
`wOpts`. -/
def wPublicDoc : List (String × Value) :=
  match buildSessionDocuments wOpts "S" "T" 0 with
  | .ok p => p.2
  | .error _ => []

/-- A lowercase-hex character is not a hyphen. -/
theorem lowerHex_ne_dash (c : Char) (h : isLowerHex c = true) : (c != '-') = true := by
  rcases eq_or_ne c '-' with rfl | hne
  · exact absurd h (by decide)
  · simpa [bne_iff_ne] using hne

/-- Stripping the hyphens from a UUID-shaped string yields a 32-character
lowercase-hex string. -/
theorem hex32_stripHyphens (u : String) (hu : IsUUIDForm u) : Hex32 (stripHyphens u) := by
  obtain ⟨a, b, c, d, e, hdata, ha, hb, hc, hd, he, hhex⟩ := hu
  have hall : ∀ l : List Char, (∀ ch ∈ l, isLowerHex ch = true) →
      l.filter (fun ch => ch != '-') = l := fun l hl =>
    List.filter_eq_self.mpr fun ch hch => lowerHex_ne_dash ch (hl ch hch)
  have hof : ∀ ch : Char, ch ∈ a ∨ ch ∈ b ∨ ch ∈ c ∨ ch ∈ d ∨ ch ∈ e →
      isLowerHex ch = true := by
    intro ch hch
    exact hhex ch (by simp [List.mem_append]; tauto)
  have hfilter : (u.data.filter fun ch => ch != '-') = a ++ b ++ c ++ d ++ e := by
    rw [hdata]
    simp only [List.filter_append]
    rw [hall a fun ch hch => hof ch (Or.inl hch),
        hall b fun ch hch => hof ch (Or.inr (Or.inl hch)),
        hall c fun ch hch => hof ch (Or.inr (Or.inr (Or.inl hch))),
        hall d fun ch hch => hof ch (Or.inr (Or.inr (Or.inr (Or.inl hch)))),
        hall e fun ch hch => hof ch (Or.inr (Or.inr (Or.inr (Or.inr hch))))]
    simp
  have hdata2 : (stripHyphens u).data = a ++ b ++ c ++ d ++ e := hfilter
  constructor
  · show (stripHyphens u).data.length = 32
    rw [hdata2]
    simp [ha, hb, hc, hd, he]
  · intro ch hch
    rw [hdata2] at hch
    exact hhex ch hch

/-- C1: when the effective location string splits on commas into exactly
two components, `buildSessionDocuments` succeeds iff both components
coerce to non-NaN numbers; on success the `locationCoordinates` object
carries exactly the two numeric parses, and on a NaN component it fails
with the descriptive location error. -/
theorem claim_c1 (o : SeedOptions) (sid tok : String) (now : Nat) (a b : String)
    (hsplit : jsSplitComma (effectiveLocation o) = [a, b]) :
    (jsToNumber a ≠ JsNum.nan → jsToNumber b ≠ JsNum.nan →
      (buildSessionDocuments o sid tok now).toOption.map
          (fun p => List.lookup "locationCoordinates" p.1) =
        some (some (.obj [("latitude", .num (jsToNumber a)),
          ("longitude", .num (jsToNumber b)),
          ("accuracy", .null), ("capturedAt", .isoTime now)]))) ∧
    ((jsToNumber a = JsNum.nan ∨ jsToNumber b = JsNum.nan) →
      buildSessionDocuments o sid tok now = .error (locationErrorMsg o)) := by
  constructor
  · intro h1 h2
    simp only [buildSessionDocuments, hsplit, List.getD_cons_zero, List.getD_cons_succ]
    rw [if_neg fun h => h.elim h1 h2]
    rfl
  · intro h
    simp only [buildSessionDocuments, hsplit, List.getD_cons_zero, List.getD_cons_succ]
    rw [if_pos h]

/-- Witness for C1 at location `1,2`. -/
theorem claim_c1_witness :
    (buildSessionDocuments wOpts "S" "T" 0).toOption.map
        (fun p => List.lookup "locationCoordinates" p.1) =
      some (some (.obj [("latitude", .num (jsToNumber "1")),
        ("longitude", .num (jsToNumber "2")),
        ("accuracy", .null), ("capturedAt", .isoTime 0)])) :=
  (claim_c1 wOpts "S" "T" 0 "1" "2" (by rfl)).1 (by decide) (by decide)

/-- C7: every session document produced by a successful run of
`buildSessionDocuments` schedules the session at `now` plus exactly 15
minutes, with `durationMinutes` 45 and `expectedAttendance` 30. -/
theorem claim_c7 (o : SeedOptions) (sid tok : String) (now : Nat)
    (sd pd : List (String × Value))
    (h : buildSessionDocuments o sid tok now = .ok (sd, pd)) :
    List.lookup "scheduledFor" sd = some (.isoTime (now + 15 * 60 * 1000)) ∧
    List.lookup "durationMinutes" sd = some (.num (.finite 45)) ∧
    List.lookup "expectedAttendance" sd = some (.num (.finite 30)) := by
  simp only [buildSessionDocuments] at h
  split at h
  · exact absurd h (by simp)
  · simp only [Except.ok.injEq, Prod.mk.injEq] at h
    obtain ⟨h1, h2⟩ := h
    subst h1
    exact ⟨rfl, rfl, rfl⟩

/-- Witness for C7 at `wOpts`. -/
theorem claim_c7_witness :
    List.lookup "scheduledFor" wSessionDoc = some (.isoTime (0 + 15 * 60 * 1000)) ∧
    List.lookup "durationMinutes" wSessionDoc = some (.num (.finite 45)) ∧
    List.lookup "expectedAttendance" wSessionDoc = some (.num (.finite 30)) :=
  claim_c7 wOpts "S" "T" 0 wSessionDoc wPublicDoc (by rfl)

/-- C4 counterexample: on a concrete successful run, the session document
has a `status` field but the decoded QR payload has none, so the QR
payload does not embed every field of the session document. -/
theorem claim_c4_counterexample :
    buildSessionDocuments wOpts "S" "T" 0 = .ok (wSessionDoc, wPublicDoc) ∧
    List.lookup "status" wSessionDoc = some (.str "scheduled") ∧
    qrFieldLookup wSessionDoc "status" = none :=
  ⟨rfl, rfl, rfl⟩

/-- C4 amended: the QR payload is a JSON string embedding a subset of the
session document's fields — `sessionId`, `sessionToken`, `className`,
`subject`, `scheduledFor`, `durationMinutes` and `locationCoordinates`
appear in the decoded payload with the session document's values, and the
payload additionally carries `teacherId`, which the session document does
not have; fields such as `status` are not mirrored. -/
theorem claim_c4_amended (o : SeedOptions) (sid tok : String) (now : Nat)
    (sd pd : List (String × Value))
    (h : buildSessionDocuments o sid tok now = .ok (sd, pd)) :
    (qrFieldLookup sd "sessionId" = List.lookup "sessionId" sd ∧
      (qrFieldLookup sd "sessionId").isSome = true) ∧
    (qrFieldLookup sd "sessionToken" = List.lookup "sessionToken" sd ∧
      (qrFieldLookup sd "sessionToken").isSome = true) ∧
    (qrFieldLookup sd "className" = List.lookup "className" sd ∧
      (qrFieldLookup sd "className").isSome = true) ∧
    (qrFieldLookup sd "subject" = List.lookup "subject" sd ∧
      (qrFieldLookup sd "subject").isSome = true) ∧
    (qrFieldLookup sd "scheduledFor" = List.lookup "scheduledFor" sd ∧
      (qrFieldLookup sd "scheduledFor").isSome = true) ∧
    (qrFieldLookup sd "durationMinutes" = List.lookup "durationMinutes" sd ∧
      (qrFieldLookup sd "durationMinutes").isSome = true) ∧
    (qrFieldLookup sd "locationCoordinates" = List.lookup "locationCoordinates" sd ∧
      (qrFieldLookup sd "locationCoordinates").isSome = true) ∧
    qrFieldLookup sd "teacherId" = some (.str o.teacherId) ∧
    List.lookup "teacherId" sd = none ∧
    qrFieldLookup sd "status" = none := by
  simp only [buildSessionDocuments] at h
  split at h
  · exact absurd h (by simp)
  · simp only [Except.ok.injEq, Prod.mk.injEq] at h
    obtain ⟨h1, h2⟩ := h
    subst h1
    exact ⟨⟨rfl, rfl⟩, ⟨rfl, rfl⟩, ⟨rfl, rfl⟩, ⟨rfl, rfl⟩, ⟨rfl, rfl⟩, ⟨rfl, rfl⟩,
      ⟨rfl, rfl⟩, rfl, rfl, rfl⟩

/-- Witness for the amended C4 at `wOpts`. -/
theorem claim_c4_witness :
    (qrFieldLookup wSessionDoc "sessionId" = List.lookup "sessionId" wSessionDoc ∧
      (qrFieldLookup wSessionDoc "sessionId").isSome = true) ∧
    (qrFieldLookup wSessionDoc "sessionToken" = List.lookup "sessionToken" wSessionDoc ∧
      (qrFieldLookup wSessionDoc "sessionToken").isSome = true) ∧
    (qrFieldLookup wSessionDoc "className" = List.lookup "className" wSessionDoc ∧
      (qrFieldLookup wSessionDoc "className").isSome = true) ∧
    (qrFieldLookup wSessionDoc "subject" = List.lookup "subject" wSessionDoc ∧
      (qrFieldLookup wSessionDoc "subject").isSome = true) ∧
    (qrFieldLookup wSessionDoc "scheduledFor" = List.lookup "scheduledFor" wSessionDoc ∧
      (qrFieldLookup wSessionDoc "scheduledFor").isSome = true) ∧
    (qrFieldLookup wSessionDoc "durationMinutes" = List.lookup "durationMinutes" wSessionDoc ∧
      (qrFieldLookup wSessionDoc "durationMinutes").isSome = true) ∧
    (qrFieldLookup wSessionDoc "locationCoordinates" = List.lookup "locationCoordinates" wSessionDoc ∧
      (qrFieldLookup wSessionDoc "locationCoordinates").isSome = true) ∧
    qrFieldLookup wSessionDoc "teacherId" = some (.str wOpts.teacherId) ∧
    List.lookup "teacherId" wSessionDoc = none ∧
    qrFieldLookup wSessionDoc "status" = none :=
  claim_c4_amended wOpts "S" "T" 0 wSessionDoc wPublicDoc (by rfl)

/-- C2: with `skipSession` set, the write stage issues no session write
and no public-session write, but does issue the teacher write and the
analytics write. -/
theorem claim_c2 (o : SeedOptions) (autoId uuid : String) (now : Nat)
    (h : o.skipSession = true) :
    (∀ w ∈ writesOf (seedEvents o autoId uuid now).1,
      w.isSessionSet = false ∧ w.isPublicSet = false) ∧
    (∃ w ∈ writesOf (seedEvents o autoId uuid now).1, w.isTeacherSet = true) ∧
    (∃ w ∈ writesOf (seedEvents o autoId uuid now).1, w.isAnalyticsSet = true) := by
  have hw : writesOf (seedEvents o autoId uuid now).1 =
      [.teacherSet o.teacherId o.teacherName,
       .analyticsSet o.teacherId (buildAnalyticsPayload o now)] := by
    simp [seedEvents, h, writesOf]
  refine ⟨fun w hmem => ?_,
    ⟨.teacherSet o.teacherId o.teacherName, by rw [hw]; exact List.mem_cons_self _ _, rfl⟩,
    ⟨.analyticsSet o.teacherId (buildAnalyticsPayload o now),
      by rw [hw]; exact List.mem_cons_of_mem _ (List.mem_cons_self _ _), rfl⟩⟩
  rw [hw] at hmem
  rcases List.mem_cons.mp hmem with rfl | hmem2
  · exact ⟨rfl, rfl⟩
  rcases List.mem_cons.mp hmem2 with rfl | hmem3
  · exact ⟨rfl, rfl⟩
  cases hmem3

/-- Options identical to `wOpts` but with the session skipped. -/
def c2Opts : SeedOptions := { wOpts with skipSession := true }

/-- Witness for C2: on a skip-session run, the teacher write that is
issued is neither a session nor a public-session write. -/
theorem claim_c2_witness :
    Write.isSessionSet (.teacherSet "t" (some "Demo Teacher")) = false ∧
    Write.isPublicSet (.teacherSet "t" (some "Demo Teacher")) = false :=
  (claim_c2 c2Opts "auto" "u-v" 0 rfl).1 (.teacherSet "t" (some "Demo Teacher"))
    (List.mem_cons_self _ _)

/-- UUID-shaped sample value for instantiating the randomness-dependent
theorems. -/
theorem isUUIDForm_sample : IsUUIDForm "00000000-0000-4000-8000-000000000000" :=
  ⟨"00000000".data, "0000".data, "4000".data, "8000".data, "000000000000".data,
    by decide, rfl, rfl, rfl, rfl, rfl, by decide⟩

/-- Options supplying, via `--session-id`, a session id equal to the
hyphen-stripped form of a possible UUID. -/
def c3Opts : SeedOptions :=
  { teacherId := "t", teacherName := some "Demo Teacher", className := some "C",
    subject := some "M", skipSession := false,
    sessionId := some "00000000000040008000000000000000", location := some "0,0" }

/-- C3 counterexample: a run whose caller-supplied session id coincides
with the generated token writes a public-session document whose
`sessionToken` equals the referenced session's document id — nothing in
the code enforces distinctness. -/
theorem claim_c3_counterexample :
    publicTokensOf (seedEvents c3Opts "auto" "00000000-0000-4000-8000-000000000000" 0).1 =
      ["00000000000040008000000000000000"] ∧
    sessionIdsOf (seedEvents c3Opts "auto" "00000000-0000-4000-8000-000000000000" 0).1 =
      ["00000000000040008000000000000000"] :=
  ⟨rfl, rfl⟩

/-- C3 amended: distinctness of token and session id is not enforced but
holds whenever the session id is not itself a 32-character lowercase-hex
string (in particular for any id containing a hyphen or of another
length), because the token is always the hyphen-stripped UUID. -/
theorem claim_c3_amended (o : SeedOptions) (autoId uuid : String) (now : Nat)
    (hu : IsUUIDForm uuid) (hid : ¬ Hex32 (o.sessionId.getD autoId)) :
    ∀ t ∈ publicTokensOf (seedEvents o autoId uuid now).1,
      ∀ i ∈ sessionIdsOf (seedEvents o autoId uuid now).1, t ≠ i := by
  intro t ht i hi
  cases hskip : o.skipSession
  · cases hb : buildSessionDocuments o (o.sessionId.getD autoId) (stripHyphens uuid) now with
    | error e =>
      simp [seedEvents, hskip, hb, publicTokensOf, writesOf] at ht
    | ok docs =>
      simp [seedEvents, hskip, hb, publicTokensOf, sessionIdsOf, writesOf] at ht hi
      subst ht
      subst hi
      intro heq
      exact hid (heq ▸ hex32_stripHyphens uuid hu)
  · simp [seedEvents, hskip, publicTokensOf, writesOf] at ht

/-- Options supplying a session id that is not 32-character lowercase hex. -/
def c3wOpts : SeedOptions := { c3Opts with sessionId := some "my-session" }

/-- Witness for the amended C3: a hyphen-containing caller-supplied
session id never equals the generated token. -/
theorem claim_c3_witness :
    ("00000000000040008000000000000000" : String) ≠ "my-session" :=
  claim_c3_amended c3wOpts "auto" "00000000-0000-4000-8000-000000000000" 0
    isUUIDForm_sample (by decide)
    "00000000000040008000000000000000" (by decide)
    "my-session" (by decide)

/-- C10: every public-session document key is the hyphen-stripped
generated identifier, hence contains no hyphen, and has length 32
whenever the identifier is UUID-shaped. -/
theorem claim_c10 (o : SeedOptions) (autoId uuid : String) (now : Nat) :
    ∀ t ∈ publicTokensOf (seedEvents o autoId uuid now).1,
      t = stripHyphens uuid ∧ '-' ∉ t.data ∧
      (IsUUIDForm uuid → t.length = 32) := by
  intro t ht
  cases hskip : o.skipSession
  · cases hb : buildSessionDocuments o (o.sessionId.getD autoId) (stripHyphens uuid) now with
    | error e =>
      simp [seedEvents, hskip, hb, publicTokensOf, writesOf] at ht
    | ok docs =>
      simp [seedEvents, hskip, hb, publicTokensOf, writesOf] at ht
      subst ht
      refine ⟨rfl, ?_, fun hu => (hex32_stripHyphens uuid hu).1⟩
      intro hmem
      simp [stripHyphens, List.mem_filter] at hmem
  · simp [seedEvents, hskip, publicTokensOf, writesOf] at ht

/-- Witness for C10 at a concrete UUID-shaped identifier. -/
theorem claim_c10_witness :
    ("00000000000040008000000000000000" : String) =
        stripHyphens "00000000-0000-4000-8000-000000000000" ∧
    '-' ∉ ("00000000000040008000000000000000" : String).data ∧
    ("00000000000040008000000000000000" : String).length = 32 := by
  have h := claim_c10 wOpts "auto" "00000000-0000-4000-8000-000000000000" 0
    "00000000000040008000000000000000" (by decide)
  exact ⟨h.1, h.2.1, h.2.2 isUUIDForm_sample⟩

/-- C5: when the parsed arguments carry no usable teacher id (and no help
flag), the run exits with code 1, prints the usage text, and its trace
contains no credential read and no store write at all — so the failure
happens before any network call. -/
theorem claim_c5 (argv : List String) (env : FsEnv) (autoId uuid : String) (now : Nat)
    (hh : (parseArgs argv).1.help = none)
    (ht : jsFalsyOS (parseArgs argv).1.teacherId = true) :
    (mainRun argv env autoId uuid now).2 = 1 ∧
    Event.usage ∈ (mainRun argv env autoId uuid now).1 ∧
    ∀ e ∈ (mainRun argv env autoId uuid now).1,
      e.isCredRead = false ∧ e.isWriteEv = false := by
  have hco : coerceOptions (parseArgs argv).1 = .missingTeacher missingTeacherMsg := by
    simp [coerceOptions, hh, ht]
  have hm : mainRun argv env autoId uuid now =
      ((parseArgs argv).2.map Event.warn ++
        [Event.usage, Event.err "\nFailed to seed Firestore:",
         Event.err missingTeacherMsg], 1) := by
    simp [mainRun, hco]
  rw [hm]
  refine ⟨rfl, by simp, fun e he => ?_⟩
  rcases List.mem_append.mp he with hw | hl
  · obtain ⟨k, _, rfl⟩ := List.mem_map.mp hw
    exact ⟨rfl, rfl⟩
  · simp only [List.mem_cons, List.not_mem_nil, or_false] at hl
    rcases hl with rfl | rfl | rfl
    · exact ⟨rfl, rfl⟩
    · exact ⟨rfl, rfl⟩
    · exact ⟨rfl, rfl⟩

/-- Environment with no credential file anywhere except a repo-root scan
candidate, used to instantiate the credential-locator theorems. -/
def c6Env : FsEnv :=
  { resolveCwd := id, resolveRepo := id, existsAt := fun _ => false,
    envServiceAccountPath := none,
    repoRootListing := ["x-firebase-adminsdk-abc.json"] }

/-- Witness for C5: `--name X` supplies no teacher id, so the run fails
before any credential read or write. -/
theorem claim_c5_witness :
    (mainRun ["--name", "X"] c6Env "auto" "u-v" 0).2 = 1 ∧
    Event.usage ∈ (mainRun ["--name", "X"] c6Env "auto" "u-v" 0).1 :=
  ⟨(claim_c5 ["--name", "X"] c6Env "auto" "u-v" 0 (by rfl) (by rfl)).1,
   (claim_c5 ["--name", "X"] c6Env "auto" "u-v" 0 (by rfl) (by rfl)).2.1⟩

/-- Whether the credential locator threw. -/
def exceptIsError : Except String (String × List Event) → Bool
  | .error _ => true
  | .ok _ => false

/-- C6 counterexample: with an explicit `--service-account` path that does
not exist, `detectServiceAccount` throws even though a scan candidate
exists in the repository root — so it is not true that it fails exactly
when no candidate exists in any source. -/
theorem claim_c6_counterexample :
    detectServiceAccount (some "creds.json") c6Env =
      .error "Service account file not found at creds.json" ∧
    c6Env.repoRootListing.filter scanFilter = ["x-firebase-adminsdk-abc.json"] :=
  ⟨rfl, rfl⟩

/-- C6 amended: the sources are tried in the fixed order (a) explicit
path, (b) environment path, (c) repo-root scan taking the first match,
with the stated existence checks and error messages, and the locator
fails exactly when the first source that applies yields no usable
candidate (an explicit dead path fails even if later sources have
candidates). -/
theorem claim_c6_amended (explicitPath : Option String) (env : FsEnv) :
    (∀ p, truthyOpt explicitPath = some p →
      (env.existsAt (env.resolveCwd p) = true →
        detectServiceAccount explicitPath env = .ok (env.resolveCwd p, [])) ∧
      (env.existsAt (env.resolveCwd p) = false →
        detectServiceAccount explicitPath env =
          .error ("Service account file not found at " ++ env.resolveCwd p))) ∧
    (truthyOpt explicitPath = none →
      (∀ p, truthyOpt env.envServiceAccountPath = some p →
        (env.existsAt (env.resolveCwd p) = true →
          detectServiceAccount explicitPath env = .ok (env.resolveCwd p, [])) ∧
        (env.existsAt (env.resolveCwd p) = false →
          detectServiceAccount explicitPath env =
            .error ("Service account file from FIREBASE_SERVICE_ACCOUNT_PATH not found at " ++
              env.resolveCwd p))) ∧
      (truthyOpt env.envServiceAccountPath = none →
        (env.repoRootListing.filter scanFilter = [] →
          detectServiceAccount explicitPath env = .error noCandidateMsg) ∧
        ∀ c rest, env.repoRootListing.filter scanFilter = c :: rest →
          detectServiceAccount explicitPath env =
            .ok (env.resolveRepo c,
              [.log ("Using service account file: " ++ env.resolveRepo c)]))) ∧
    (exceptIsError (detectServiceAccount explicitPath env) = true ↔
      firstSourceFails explicitPath env) := by
  refine ⟨fun p hp => ⟨fun hex => ?_, fun hex => ?_⟩, fun hne => ⟨fun p hp => ⟨fun hex => ?_, fun hex => ?_⟩, fun hnenv => ⟨fun hscan => ?_, fun c rest hscan => ?_⟩⟩, ?_⟩
  · simp [detectServiceAccount, hp, hex]
  · simp [detectServiceAccount, hp, hex]
  · simp [detectServiceAccount, hne, hp, hex]
  · simp [detectServiceAccount, hne, hp, hex]
  · simp [detectServiceAccount, hne, hnenv, hscan]
  · simp [detectServiceAccount, hne, hnenv, hscan]
  · cases hp : truthyOpt explicitPath with
    | some p =>
      cases hex : env.existsAt (env.resolveCwd p) <;>
        simp [detectServiceAccount, firstSourceFails, hp, hex, exceptIsError]
    | none =>
      cases hq : truthyOpt env.envServiceAccountPath with
      | some q =>
        cases hex : env.existsAt (env.resolveCwd q) <;>
          simp [detectServiceAccount, firstSourceFails, hp, hq, hex, exceptIsError]
      | none =>
        cases hscan : env.repoRootListing.filter scanFilter with
        | nil => simp [detectServiceAccount, firstSourceFails, hp, hq, hscan, exceptIsError]
        | cons c rest =>
          simp [detectServiceAccount, firstSourceFails, hp, hq, hscan, exceptIsError]

/-- Environment in which every path exists. -/
def c6EnvB : FsEnv :=
  { resolveCwd := id, resolveRepo := id, existsAt := fun _ => true,
    envServiceAccountPath := none, repoRootListing := [] }

/-- Witness for the amended C6: an existing explicit path is returned
as-is. -/
theorem claim_c6_witness :
    detectServiceAccount (some "creds.json") c6EnvB = .ok ("creds.json", []) :=
  ((claim_c6_amended (some "creds.json") c6EnvB).1 "creds.json" rfl).1 rfl

/-- Options for the analytics counterexample: fixed teacher and class. -/
def c8OptsA : SeedOptions :=
  { teacherId := "t", teacherName := some "A", className := some "C",
    subject := some "Mathematics", skipSession := false, sessionId := none,
    location := some "0,0" }

/-- Same as `c8OptsA` except for the subject. -/
def c8OptsB : SeedOptions := { c8OptsA with subject := some "Chemistry" }

/-- Same as `c8OptsA` except for options that do not feed the payload. -/
def c8OptsC : SeedOptions :=
  { c8OptsA with
    teacherName := some "B"
    skipSession := true
    sessionId := some "x"
    location := some "9,9" }

/-- C8 counterexample: two option records agreeing on teacher id and
class name but differing in subject produce different analytics payloads
(the first synthetic class's `subject` comes from the options), so the
subject is not hardcoded. -/
theorem claim_c8_counterexample :
    c8OptsA.teacherId = c8OptsB.teacherId ∧ c8OptsA.className = c8OptsB.className ∧
    buildAnalyticsPayload c8OptsA 0 ≠ buildAnalyticsPayload c8OptsB 0 := by
  refine ⟨rfl, rfl, fun h => ?_⟩
  have h2 := congrArg (fun p => p.classes.map fun cs => cs.subject) h
  simp [buildAnalyticsPayload, c8OptsA, c8OptsB] at h2

/-- C8 amended: the analytics payload depends only on the teacher id, the
class name and the subject (besides timestamps): any two option records
agreeing on those three produce identical payloads, and no other option
changes the payload. -/
theorem claim_c8_amended (o1 o2 : SeedOptions) (now : Nat)
    (ht : o1.teacherId = o2.teacherId) (hc : o1.className = o2.className)
    (hs : o1.subject = o2.subject) :
    buildAnalyticsPayload o1 now = buildAnalyticsPayload o2 now := by
  unfold buildAnalyticsPayload
  rw [ht, hc, hs]

/-- Witness for the amended C8: options differing only in teacher name,
skip flag, session id and location give the same payload. -/
theorem claim_c8_witness :
    buildAnalyticsPayload c8OptsA 0 = buildAnalyticsPayload c8OptsC 0 :=
  claim_c8_amended c8OptsA c8OptsC 0 rfl rfl rfl

end SeedFs
